import Mathlib

/-!
# Verification of the wgpu-example renderer

A shallow embedding, in Lean 4, of the core of the `wgpu-example`
repository (a minimal wgpu + egui rendering demo), together with proofs
about it.

The embedding covers:

* the per-frame command trace recorded by `Renderer::render_frame`
  (`src/renderer.rs`);
* the surface/depth-texture state machine of `Gpu` and `Renderer`
  (`src/gpu.rs`, `src/renderer.rs`);
* the transform mathematics of `Scene::update` (`src/scene.rs`), with the
  relevant `nalgebra_glm` functions embedded over the real numbers;
* the event-handling state machine of `App::window_event` (`src/lib.rs`).
-/

namespace WgpuExample

/-! ## Texture formats (embedding of the fragment of `wgpu::TextureFormat`
used by this repository, together with `TextureFormat::is_srgb`). -/

/-- The surface/depth texture formats that occur in this program: the
depth format `Depth32Float` fixed by `Renderer::DEPTH_FORMAT`
(`src/renderer.rs` line 207) and representative color formats a surface
may report, in sRGB and non-sRGB ("linear") flavors. -/
inductive TextureFormat where
  | Rgba8Unorm
  | Rgba8UnormSrgb
  | Bgra8Unorm
  | Bgra8UnormSrgb
  | Rgba16Float
  | Depth32Float
  deriving DecidableEq, Repr

/-- Embedding of `wgpu::TextureFormat::is_srgb`: true exactly on the
`*Srgb` color formats. -/
def TextureFormat.is_srgb : TextureFormat → Bool
  | .Rgba8UnormSrgb => true
  | .Bgra8UnormSrgb => true
  | _ => false

/-! ## The per-frame command trace of `Renderer::render_frame`

`Renderer::render_frame` (`src/renderer.rs` lines 402-581) performs a fixed
sequence of effectful steps.  We embed that sequence as a list of events,
in the exact order the Rust function performs them.  Events recorded
between `beginRenderPass` and `endRenderPass` are the commands recorded
into the single render pass of the frame. -/

/-- One observable step of `Renderer::render_frame`. -/
inductive RenderEvent where
  /-- Call `self.scene.update(&self.gpu.queue, self.gpu.aspect_ratio(), delta_time)`
  after converting `delta_time` to seconds (lines 415-418). -/
  | sceneUpdate
  /-- Call `self.egui_renderer.update_texture(&device, &queue, *id, image_delta)`
  for one entry of `textures_delta.set` (lines 426-429). -/
  | updateTexture (id : ℕ)
  /-- Call `self.egui_renderer.free_texture(id)` for one entry of
  `textures_delta.free` (lines 437-439). -/
  | freeTexture (id : ℕ)
  /-- Call `device.create_command_encoder(..)` (lines 456-461). -/
  | createEncoder
  /-- Call `self.egui_renderer.update_buffers(&device, &queue, &mut encoder, ..)`
  (lines 463-469). -/
  | updateBuffers
  /-- Call `self.gpu.surface.get_current_texture()` (lines 484-488). -/
  | acquireSurfaceTexture
  /-- Call `surface_texture.texture.create_view(..)` (lines 505-518). -/
  | createSurfaceView
  /-- Call `encoder.begin_render_pass(..)` (lines 544-569). -/
  | beginRenderPass
  /-- Call `self.scene.render(&mut render_pass)` (line 570). -/
  | sceneRender
  /-- Call `self.egui_renderer.render(&mut render_pass.forget_lifetime(), ..)`
  (lines 572-576). -/
  | eguiRender
  /-- Drop the render pass at the end of its scope (line 577),
  closing it so that the encoder can be finished. -/
  | endRenderPass
  /-- Call `self.gpu.queue.submit(std::iter::once(encoder.finish()))` (line 579). -/
  | submit
  /-- Call `surface_texture.present()` (line 580). -/
  | present
  deriving DecidableEq, Repr

/-- Embedding of `egui::TexturesDelta` as consumed by `render_frame`:
the `set` list carries the ids of textures added or changed (the image
payload is irrelevant to the recorded call sequence) and `free` the ids
of textures to release, both in list order. -/
structure TexturesDelta where
  set : List ℕ
  free : List ℕ
  deriving DecidableEq, Repr

/-- The sequence of effectful steps performed by one call to
`Renderer::render_frame` (`src/renderer.rs` lines 402-581), in source
order: scene update; one `update_texture` per `textures_delta.set` entry;
one `free_texture` per `textures_delta.free` entry; encoder creation;
egui buffer write; surface-texture acquisition; view creation; the render
pass with the scene draw then the egui draw; pass end; submission;
presentation.  The `insert_debug_marker("Render scene")` label of line
520 carries no commands and is not traced. -/
def render_frame_trace (td : TexturesDelta) : List RenderEvent :=
  RenderEvent.sceneUpdate ::
    (td.set.map RenderEvent.updateTexture ++
      (td.free.map RenderEvent.freeTexture ++
        [RenderEvent.createEncoder,
         RenderEvent.updateBuffers,
         RenderEvent.acquireSurfaceTexture,
         RenderEvent.createSurfaceView,
         RenderEvent.beginRenderPass,
         RenderEvent.sceneRender,
         RenderEvent.eguiRender,
         RenderEvent.endRenderPass,
         RenderEvent.submit,
         RenderEvent.present]))

/-- The events recorded into the render pass of a frame trace: the
segment strictly between the first `beginRenderPass` and the first
`endRenderPass` after it. -/
def eventsInPass (tr : List RenderEvent) : List RenderEvent :=
  ((tr.dropWhile (fun e => e ≠ RenderEvent.beginRenderPass)).drop 1).takeWhile
    (fun e => e ≠ RenderEvent.endRenderPass)

/-- The phase of a `render_frame` step: `render_frame` performs its
steps in weakly increasing phase order, with all events of a lower phase
recorded strictly before any event of a higher phase. -/
def RenderEvent.phase : RenderEvent → ℕ
  | .sceneUpdate => 0
  | .updateTexture _ => 1
  | .freeTexture _ => 2
  | .createEncoder => 3
  | .updateBuffers => 4
  | .acquireSurfaceTexture => 5
  | .createSurfaceView => 6
  | .beginRenderPass => 7
  | .sceneRender => 8
  | .eguiRender => 9
  | .endRenderPass => 10
  | .submit => 11
  | .present => 12

/-! ## The `Gpu` state (`src/gpu.rs`)

`Gpu` owns the surface, device, queue, surface configuration and chosen
surface format.  The device and queue are opaque handles with no state
observed by this program, so the embedding keeps the surface
configuration, the chosen format, and (standing in for the surface
handle) the configuration most recently passed to `surface.configure`. -/

/-- Embedding of `wgpu::SurfaceConfiguration` as built in `Gpu::new_async`
(`src/gpu.rs` lines 565-574).  `usage` is always `RENDER_ATTACHMENT` and
`view_formats` always empty, so they are not carried; the present and
alpha modes are abstract identifiers. -/
structure SurfaceConfiguration where
  format : TextureFormat
  width : ℕ
  height : ℕ
  present_mode : ℕ
  alpha_mode : ℕ
  desired_maximum_frame_latency : ℕ
  deriving DecidableEq, Repr

/-- The capabilities reported by `surface.get_capabilities(&adapter)`
(`src/gpu.rs` line 480): the supported formats, present modes and alpha
modes, each in the adapter's reported order. -/
structure SurfaceCapabilities where
  formats : List TextureFormat
  present_modes : List ℕ
  alpha_modes : List ℕ
  deriving DecidableEq, Repr

/-- The surface-format selection of `Gpu::new_async` (`src/gpu.rs` lines
514-519): the first reported format that is not sRGB, falling back to the
first reported format; `none` when the capability list is empty (where
the Rust code would panic on `formats[0]`). -/
def choose_surface_format (formats : List TextureFormat) : Option TextureFormat :=
  match formats.find? (fun f => !f.is_srgb) with
  | some f => some f
  | none => formats.head?

/-- Embedding of the `Gpu` struct (`src/gpu.rs` lines 82-150).  The
`device` and `queue` fields are opaque handles and carry no observable
state; the `surface` field is modeled by the configuration most recently
applied to it via `surface.configure` (`none` only for a surface never
configured, which does not occur in this program). -/
structure Gpu where
  surface_configured_with : Option SurfaceConfiguration
  surface_config : SurfaceConfiguration
  surface_format : TextureFormat
  deriving DecidableEq, Repr

/-- Embedding of `Gpu::aspect_ratio` (`src/gpu.rs` lines 175-177):
`width as f32 / height.max(1) as f32`.  Every `f32` value and exact
quotient here is rational, so the result lives in `ℚ`. -/
def Gpu.aspect_ratio (g : Gpu) : ℚ :=
  (g.surface_config.width : ℚ) / ((max g.surface_config.height 1 : ℕ) : ℚ)

/-- Embedding of `Gpu::resize` (`src/gpu.rs` lines 199-203): overwrite the
stored configuration's dimensions, then reconfigure the surface with the
updated configuration. -/
def Gpu.resize (g : Gpu) (width height : ℕ) : Gpu :=
  let cfg := { g.surface_config with width := width, height := height }
  { g with surface_config := cfg, surface_configured_with := some cfg }

/-- The texture view returned by `Gpu::create_depth_texture`: the
embedding records the creation parameters of the underlying texture
(`src/gpu.rs` lines 256-272). -/
structure DepthTextureView where
  width : ℕ
  height : ℕ
  depth_or_array_layers : ℕ
  mip_level_count : ℕ
  sample_count : ℕ
  format : TextureFormat
  deriving DecidableEq, Repr

/-- Embedding of `Gpu::create_depth_texture` (`src/gpu.rs` lines 235-284):
allocates a fresh 2D single-layer, single-sample, single-mip
`Depth32Float` texture at exactly the given dimensions and returns its
full view. -/
def Gpu.create_depth_texture (_g : Gpu) (width height : ℕ) : DepthTextureView :=
  { width := width
    height := height
    depth_or_array_layers := 1
    mip_level_count := 1
    sample_count := 1
    format := TextureFormat.Depth32Float }

/-- Embedding of `Gpu::new_async` (`src/gpu.rs` lines 320-586), starting
from the reported surface capabilities (adapter and device negotiation
are environment effects that either succeed or terminate the process).
Selects the surface format, builds the configuration with the given
dimensions, the first present mode, the first alpha mode and a maximum
frame latency of 2, and configures the surface with it.  `none` models
the process-terminating panic on an empty capability list. -/
def Gpu.new_async (caps : SurfaceCapabilities) (width height : ℕ) : Option Gpu := do
  let surface_format ← choose_surface_format caps.formats
  let present_mode ← caps.present_modes.head?
  let alpha_mode ← caps.alpha_modes.head?
  let surface_config : SurfaceConfiguration :=
    { format := surface_format
      width := width
      height := height
      present_mode := present_mode
      alpha_mode := alpha_mode
      desired_maximum_frame_latency := 2 }
  some { surface_configured_with := some surface_config
         surface_config := surface_config
         surface_format := surface_format }

/-! ## Transform mathematics (`nalgebra_glm` functions used by
`Scene::update`)

`Scene::update` (`src/scene.rs` lines 381-423) computes with `f32`
matrices through `nalgebra_glm`.  The embedding works over `ℝ` (exact
real arithmetic; the spec's properties are stated modulo floating-point
error).  Matrices are indexed `(row, column)`, matching `nalgebra`'s
`m[(r, c)]`. -/

/-- A 4×4 real matrix, embedding `nalgebra_glm::Mat4`. -/
abbrev Mat4 := Matrix (Fin 4) (Fin 4) ℝ

/-- A 3-component real vector, embedding `nalgebra_glm::Vec3`. -/
abbrev Vec3 := Fin 3 → ℝ

/-- Embedding of `f32::to_radians`: degrees to radians. -/
noncomputable def radians (degrees : ℝ) : ℝ := degrees * Real.pi / 180

/-- Embedding of `nalgebra_glm::perspective_lh_zo(aspect, fovy, near, far)`:
the left-handed, zero-to-one-depth perspective projection.  Entries follow
the nalgebra-glm source: with `t = tan (fovy / 2)`, the nonzero entries
are `m00 = 1 / (aspect * t)`, `m11 = 1 / t`, `m22 = far / (far - near)`,
`m23 = -(far * near) / (far - near)`, `m32 = 1`. -/
noncomputable def perspective_lh_zo (aspect fovy near far : ℝ) : Mat4 :=
  let tanHalfFovy := Real.tan (fovy / 2)
  Matrix.of
    ![![1 / (aspect * tanHalfFovy), 0, 0, 0],
      ![0, 1 / tanHalfFovy, 0, 0],
      ![0, 0, far / (far - near), -(far * near) / (far - near)],
      ![0, 0, 1, 0]]

/-- The cross product of two 3-vectors, embedding `Vector3::cross`. -/
def cross3 (a b : Vec3) : Vec3 :=
  ![a 1 * b 2 - a 2 * b 1, a 2 * b 0 - a 0 * b 2, a 0 * b 1 - a 1 * b 0]

/-- The dot product of two 3-vectors, embedding `Vector3::dot`. -/
def dot3 (a b : Vec3) : ℝ := a 0 * b 0 + a 1 * b 1 + a 2 * b 2

/-- Embedding of `Vector3::normalize`: divide by the Euclidean norm. -/
noncomputable def normalize3 (v : Vec3) : Vec3 :=
  fun i => v i / Real.sqrt (v 0 ^ 2 + v 1 ^ 2 + v 2 ^ 2)

/-- Embedding of `nalgebra_glm::look_at_lh(eye, center, up)`: the
left-handed look-at view matrix.  Following the nalgebra source
(`Isometry::look_at_lh` to homogeneous form): the camera basis is
`z = normalize (center - eye)`, `x = normalize (up × z)`, `y = z × x`;
the rotation rows are `x`, `y`, `z` and the translation column is
`-(basis · eye)`. -/
noncomputable def look_at_lh (eye center up : Vec3) : Mat4 :=
  let zaxis := normalize3 (fun i => center i - eye i)
  let xaxis := normalize3 (cross3 up zaxis)
  let yaxis := cross3 zaxis xaxis
  Matrix.of
    ![![xaxis 0, xaxis 1, xaxis 2, -dot3 xaxis eye],
      ![yaxis 0, yaxis 1, yaxis 2, -dot3 yaxis eye],
      ![zaxis 0, zaxis 1, zaxis 2, -dot3 zaxis eye],
      ![0, 0, 0, 1]]

/-- The homogeneous rotation matrix built by
`Rotation3::from_axis_angle(&Unit::new_normalize(axis), angle)`
(Rodrigues' formula on the normalized axis). -/
noncomputable def axis_angle_homogeneous (axis : Vec3) (angle : ℝ) : Mat4 :=
  let u := normalize3 axis
  let c := Real.cos angle
  let s := Real.sin angle
  Matrix.of
    ![![c + u 0 ^ 2 * (1 - c), u 0 * u 1 * (1 - c) - u 2 * s,
        u 0 * u 2 * (1 - c) + u 1 * s, 0],
      ![u 1 * u 0 * (1 - c) + u 2 * s, c + u 1 ^ 2 * (1 - c),
        u 1 * u 2 * (1 - c) - u 0 * s, 0],
      ![u 2 * u 0 * (1 - c) - u 1 * s, u 2 * u 1 * (1 - c) + u 0 * s,
        c + u 2 ^ 2 * (1 - c), 0],
      ![0, 0, 0, 1]]

/-- Embedding of `nalgebra_glm::rotate(m, angle, axis)`: right-multiply
`m` by the homogeneous axis-angle rotation. -/
noncomputable def glm_rotate (m : Mat4) (angle : ℝ) (axis : Vec3) : Mat4 :=
  m * axis_angle_homogeneous axis angle

/-- The standard rotation about the +Y axis by `θ` (the matrix the spec
means by "a rotation about the Y axis"), stated independently of the
`nalgebra` construction. -/
noncomputable def rotationY (θ : ℝ) : Mat4 :=
  Matrix.of
    ![![Real.cos θ, 0, Real.sin θ, 0],
      ![0, 1, 0, 0],
      ![-Real.sin θ, 0, Real.cos θ, 0],
      ![0, 0, 0, 1]]

/-! ## `Scene` and its per-frame update (`src/scene.rs`) -/

/-- Embedding of the `UniformBuffer` block (`src/uniform_buffer.rs`
lines 135-153): a single 4×4 MVP matrix. -/
structure UniformBuffer where
  mvp : Mat4

/-- Embedding of `UniformBinding` (`src/uniform_binding.rs` lines
119-188): the bind group and layout are fixed descriptors, so the
observable state is the GPU buffer's current block contents. -/
structure UniformBinding where
  buffer : UniformBuffer

/-- Embedding of `UniformBinding::new` (`src/uniform_binding.rs` lines
240-352): the buffer is initialized with `UniformBuffer::default()`,
i.e. the zero matrix. -/
def UniformBinding.new : UniformBinding := { buffer := { mvp := 0 } }

/-- A `queue.write_buffer` command as issued by
`UniformBinding::update_buffer` (`src/uniform_binding.rs` lines 385-396):
the byte offset and the block written there. -/
structure QueueWrite where
  offset : ℕ
  data : UniformBuffer

/-- Embedding of `UniformBinding::update_buffer`: queue a write of the
given block at the given byte offset and return the binding with the
write applied, together with the issued command. -/
def UniformBinding.update_buffer (u : UniformBinding) (offset : ℕ)
    (uniform_buffer : UniformBuffer) : UniformBinding × QueueWrite :=
  ({ u with buffer := uniform_buffer }, { offset := offset, data := uniform_buffer })

/-- A vertex of the demo geometry (`src/vertex.rs` lines 99-128):
position and color, four `f32` components each. -/
structure Vertex where
  position : Fin 4 → ℝ
  color : Fin 4 → ℝ

/-- The demo triangle's vertices (`src/vertex.rs` `VERTICES`). -/
def VERTICES : List Vertex :=
  [{ position := ![1, -1, 0, 1], color := ![1, 0, 0, 1] },
   { position := ![-1, -1, 0, 1], color := ![0, 1, 0, 1] },
   { position := ![0, 1, 0, 1], color := ![0, 0, 1, 1] }]

/-- The demo triangle's indices (`src/lib.rs` `INDICES`). -/
def INDICES : List ℕ := [0, 1, 2]

/-- Embedding of the `Scene` struct (`src/scene.rs` lines 142-190): the
model transform, the write-once vertex and index buffer contents, and the
uniform binding.  The render pipeline is a fixed GPU object with no
evolving state; the embedding keeps its color target format (the surface
format passed to `Scene::create_pipeline`). -/
structure Scene where
  model : Mat4
  vertex_buffer : List Vertex
  index_buffer : List ℕ
  uniform : UniformBinding
  pipeline_color_format : TextureFormat

/-- Embedding of `Scene::new(device, surface_format)` (`src/scene.rs`
lines 237-320): uploads `VERTICES` and `INDICES`, creates the uniform
binding, builds the pipeline against `surface_format`, and initializes
the model transform to the identity. -/
def Scene.new (surface_format : TextureFormat) : Scene :=
  { model := 1
    vertex_buffer := VERTICES
    index_buffer := INDICES
    uniform := UniformBinding.new
    pipeline_color_format := surface_format }

/-- Embedding of `Scene::update(queue, aspect_ratio, delta_time)`
(`src/scene.rs` lines 381-423): recompute the projection
(`perspective_lh_zo(aspect_ratio, 80°.to_radians(), 0.1, 1000.0)`) and
view (`look_at_lh((0,0,3), (0,0,0), y)`) matrices, compose an additional
rotation of `30°.to_radians() * delta_time` about the Y axis onto the
model transform, and write `projection * view * model` to the uniform
binding at byte offset 0.  Returns the updated scene and the issued
queue write. -/
noncomputable def Scene.update (s : Scene) (aspect_ratio delta_time : ℝ) :
    Scene × QueueWrite :=
  let projection := perspective_lh_zo aspect_ratio (radians 80) 0.1 1000
  let view := look_at_lh ![0, 0, 3] ![0, 0, 0] ![0, 1, 0]
  let model := glm_rotate s.model (radians 30 * delta_time) ![0, 1, 0]
  let updated := UniformBinding.update_buffer s.uniform 0 { mvp := projection * view * model }
  ({ s with model := model, uniform := updated.1 }, updated.2)

/-- Iterated `Scene::update` with a fixed aspect ratio and
`delta_time`, discarding the queue writes: `n` successive frames. -/
noncomputable def Scene.updateIter (s : Scene) (aspect_ratio delta_time : ℝ) : ℕ → Scene
  | 0 => s
  | n + 1 => ((s.updateIter aspect_ratio delta_time n).update aspect_ratio delta_time).1

/-! ## The `Renderer` (`src/renderer.rs`) -/

/-- The configuration of the egui backend created by
`egui_wgpu::Renderer::new` (`src/renderer.rs` lines 292-298): output
color format, optional depth format, MSAA sample count, dithering. -/
structure EguiRenderer where
  output_color_format : TextureFormat
  output_depth_format : Option TextureFormat
  msaa_samples : ℕ
  dithering : Bool

/-- Embedding of the `Renderer` struct (`src/renderer.rs` lines 111-163):
the GPU state, the depth texture view, the egui backend, and the scene. -/
structure Renderer where
  gpu : Gpu
  depth_texture_view : DepthTextureView
  egui_renderer : EguiRenderer
  scene : Scene

/-- Embedding of `Renderer::DEPTH_FORMAT` (`src/renderer.rs` line 207). -/
def Renderer.DEPTH_FORMAT : TextureFormat := TextureFormat.Depth32Float

/-- Embedding of `Renderer::new(window, width, height)` (`src/renderer.rs`
lines 241-325): construct the `Gpu` (given the surface capabilities the
environment reports), create the depth texture at `(width, height)`,
create the egui renderer against the surface format with the shared depth
format, one sample and no dithering, and create the scene. -/
def Renderer.new (caps : SurfaceCapabilities) (width height : ℕ) : Option Renderer := do
  let gpu ← Gpu.new_async caps width height
  let depth_texture_view := gpu.create_depth_texture width height
  let egui_renderer : EguiRenderer :=
    { output_color_format := gpu.surface_config.format
      output_depth_format := some Renderer.DEPTH_FORMAT
      msaa_samples := 1
      dithering := false }
  let scene := Scene.new gpu.surface_format
  some { gpu := gpu
         depth_texture_view := depth_texture_view
         egui_renderer := egui_renderer
         scene := scene }

/-- Embedding of `Renderer::resize` (`src/renderer.rs` lines 353-356):
forward to `Gpu::resize`, then recreate (not resize) the depth texture
view at the new dimensions. -/
def Renderer.resize (r : Renderer) (width height : ℕ) : Renderer :=
  let gpu := r.gpu.resize width height
  { r with gpu := gpu, depth_texture_view := gpu.create_depth_texture width height }

/-! ## The application shell (`src/lib.rs`, `App` and `App::window_event`)

`App::window_event` (`src/lib.rs` lines 819-1084) is a state transition
on the `App` struct that also performs calls on the event loop, the
renderer and the window.  The embedding returns the successor state
together with the list of externally visible actions, in the order the
code performs them. -/

/-- The key codes this program distinguishes (`src/lib.rs` line 877
checks only for `Escape`). -/
inductive KeyCode where
  | Escape
  | Other (code : ℕ)
  deriving DecidableEq, Repr

/-- The window events `App::window_event` distinguishes (`src/lib.rs`
lines 866-1080): a keyboard key press, a resize with new physical size,
a close request, a redraw request, and every other event (`_ => ()`). -/
inductive WindowEvent where
  | keyboardInput (key : KeyCode)
  | resized (width height : ℕ)
  | closeRequested
  | redrawRequested
  | other
  deriving DecidableEq, Repr

/-- The externally visible calls `App::window_event` can make:
`event_loop.exit()`, `renderer.resize(w, h)`,
`renderer.render_frame(..)`, and `window.request_redraw()`. -/
inductive AppAction where
  | exit
  | resizeRenderer (width height : ℕ)
  | renderFrame
  | requestRedraw
  deriving DecidableEq, Repr

/-- The egui input-translation state (`egui_winit::State`): an external
collaborator whose only observable output in `window_event` is whether
`on_window_event` reports the event as consumed, modeled as an oracle
over events.  (Its internal input-accumulation state is opaque and not
observed by any claim.) -/
structure GuiState where
  consumes : WindowEvent → Bool

/-- Embedding of the `App` struct (`src/lib.rs` lines 173-277).  The
window handle is opaque (`Option Unit` records its presence); the
last-render timestamp is a clock reading in abstract ticks;
`renderer_receiver` models the one-shot channel of the web target:
`none` when no channel is held, `some none` while construction is
pending, `some (some r)` when the constructed renderer is ready to be
received (on desktop targets it is always `none`). -/
structure App where
  window : Option Unit
  renderer : Option Renderer
  gui_state : Option GuiState
  last_render_time : Option ℕ
  renderer_receiver : Option (Option Renderer)
  last_size : ℕ × ℕ
  panels_visible : Bool

/-- The web-target construction-completion check at the top of
`App::window_event` (`src/lib.rs` lines 832-844): poll the pending
channel without blocking; if a renderer has arrived, adopt it and drop
the channel, otherwise leave the state unchanged. -/
def App.poll_renderer_receiver (app : App) : App :=
  match app.renderer_receiver with
  | some (some r) => { app with renderer := some r, renderer_receiver := none }
  | _ => app

/-- Embedding of `App::window_event` (`src/lib.rs` lines 819-1084).
`now` is the clock reading taken on a redraw (`Instant::now()`).  In
source order: the web-target receiver check; the `let (Some(..), ..)
else return` guard on `gui_state`, `renderer`, `window`,
`last_render_time`; the early return when the GUI consumed the event;
the event match (Escape exits; a resize calls `renderer.resize` and
stores the size; a close request exits; a redraw computes `delta_time`,
stores `now`, and calls `renderer.render_frame`); and finally
`window.request_redraw()` on every path that reaches the match.  The
renderer's own intra-frame effects are modeled by `render_frame_trace`
and `Scene.update`. -/
def App.window_event (app : App) (now : ℕ) (event : WindowEvent) :
    App × List AppAction :=
  let app := app.poll_renderer_receiver
  match app.gui_state, app.renderer, app.window, app.last_render_time with
  | some gui_state, some renderer, some _, some _ =>
    if gui_state.consumes event then (app, [])
    else
      match event with
      | .keyboardInput key =>
          (app,
           (if key = KeyCode.Escape then [AppAction.exit] else []) ++
             [AppAction.requestRedraw])
      | .resized width height =>
          ({ app with
              renderer := some (renderer.resize width height)
              last_size := (width, height) },
           [AppAction.resizeRenderer width height, AppAction.requestRedraw])
      | .closeRequested => (app, [AppAction.exit, AppAction.requestRedraw])
      | .redrawRequested =>
          ({ app with last_render_time := some now },
           [AppAction.renderFrame, AppAction.requestRedraw])
      | .other => (app, [AppAction.requestRedraw])
  | _, _, _, _ => (app, [])

/-! ## Concrete states

Closed sample states used to evaluate the theorems below on concrete
inputs (an 800×600 window on a surface whose adapter reports a single
non-sRGB format). -/

/-- A surface configuration for an 800×600 window with the `Bgra8Unorm`
format, as `Gpu::new_async` would build it. -/
def surfaceConfig0 : SurfaceConfiguration :=
  { format := TextureFormat.Bgra8Unorm
    width := 800
    height := 600
    present_mode := 0
    alpha_mode := 0
    desired_maximum_frame_latency := 2 }

/-- Surface capabilities reporting a single non-sRGB format. -/
def caps0 : SurfaceCapabilities :=
  { formats := [TextureFormat.Bgra8Unorm], present_modes := [0], alpha_modes := [0] }

/-- The `Gpu` state produced by `Gpu.new_async caps0 800 600`. -/
def gpu0 : Gpu :=
  { surface_configured_with := some surfaceConfig0
    surface_config := surfaceConfig0
    surface_format := TextureFormat.Bgra8Unorm }

/-- A `Gpu` state with a degenerate (zero-height) surface, as after
minimizing the window. -/
def gpuZeroHeight : Gpu :=
  { surface_configured_with := some { surfaceConfig0 with width := 640, height := 0 }
    surface_config := { surfaceConfig0 with width := 640, height := 0 }
    surface_format := TextureFormat.Bgra8Unorm }

/-- The `Renderer` produced by `Renderer.new caps0 800 600`. -/
def renderer0 : Renderer :=
  { gpu := gpu0
    depth_texture_view := gpu0.create_depth_texture 800 600
    egui_renderer :=
      { output_color_format := TextureFormat.Bgra8Unorm
        output_depth_format := some Renderer.DEPTH_FORMAT
        msaa_samples := 1
        dithering := false }
    scene := Scene.new TextureFormat.Bgra8Unorm }

/-- A fully initialized (Ready) application state whose GUI consumes
every event. -/
def appReadyConsuming : App :=
  { window := some ()
    renderer := some renderer0
    gui_state := some { consumes := fun _ => true }
    last_render_time := some 0
    renderer_receiver := none
    last_size := (800, 600)
    panels_visible := false }

/-- A web-target application state in which the window, GUI state and
timestamp are present, the renderer is still absent, and the
asynchronous construction has just completed: the one-shot channel holds
the constructed renderer, not yet received. -/
def appPendingReady : App :=
  { window := some ()
    renderer := none
    gui_state := some { consumes := fun _ => false }
    last_render_time := some 0
    renderer_receiver := some (some renderer0)
    last_size := (800, 600)
    panels_visible := false }

/-- An application state before `resumed` has run: every optional field
is absent. -/
def appUninit : App :=
  { window := none
    renderer := none
    gui_state := none
    last_render_time := none
    renderer_receiver := none
    last_size := (0, 0)
    panels_visible := false }

/-! ## Supporting lemmas -/

/-- A mapped list contains no occurrence of an element outside the map's
image, so its count there is zero. -/
theorem count_map_eq_zero {α β : Type} [DecidableEq β] (f : α → β) (l : List α)
    (b : β) (h : ∀ a, b ≠ f a) : (l.map f).count b = 0 := by
  rw [List.count_eq_zero]
  intro hmem
  obtain ⟨a, -, ha⟩ := List.mem_map.1 hmem
  exact h a ha.symm

/-- Dropping while distinct from `beginRenderPass` skips any prefix free
of `beginRenderPass`. -/
theorem dropWhile_ne_begin_append (xs ys : List RenderEvent)
    (h : ∀ x ∈ xs, x ≠ RenderEvent.beginRenderPass) :
    (xs ++ ys).dropWhile (fun e => e ≠ RenderEvent.beginRenderPass) =
      ys.dropWhile (fun e => e ≠ RenderEvent.beginRenderPass) := by
  induction xs with
  | nil => rfl
  | cons x xs ih =>
    rw [List.cons_append, List.dropWhile_cons]
    have hx : x ≠ RenderEvent.beginRenderPass := h x (List.mem_cons_self x xs)
    rw [if_pos (decide_eq_true hx)]
    exact ih fun a ha => h a (List.mem_cons_of_mem _ ha)

/-! ## C1: scene draw before GUI draw, in the same render pass -/

/-- Claim C1: in every call to `Renderer::render_frame`, the events recorded
into the render pass are exactly the scene draw followed by the GUI
draw — so the 3D scene's draw commands (`Scene::render`) are recorded
strictly before the GUI backend's draw commands
(`egui_renderer.render`), both into the unique render pass of the frame
(`beginRenderPass` and `endRenderPass` each occur exactly once). -/
theorem scene_render_before_egui_render (td : TexturesDelta) :
    eventsInPass (render_frame_trace td) =
      [RenderEvent.sceneRender, RenderEvent.eguiRender] ∧
    (render_frame_trace td).count RenderEvent.beginRenderPass = 1 ∧
    (render_frame_trace td).count RenderEvent.endRenderPass = 1 := by
  refine ⟨?_, ?_, ?_⟩
  · unfold eventsInPass render_frame_trace
    rw [List.dropWhile_cons, if_pos (by decide)]
    rw [dropWhile_ne_begin_append _ _ (by
      intro x hx
      obtain ⟨a, -, rfl⟩ := List.mem_map.1 hx
      simp)]
    rw [dropWhile_ne_begin_append _ _ (by
      intro x hx
      obtain ⟨a, -, rfl⟩ := List.mem_map.1 hx
      simp)]
    rfl
  · unfold render_frame_trace
    rw [List.count_cons, List.count_append, List.count_append]
    rw [count_map_eq_zero _ _ _ (fun a => by simp),
      count_map_eq_zero _ _ _ (fun a => by simp)]
    rfl
  · unfold render_frame_trace
    rw [List.count_cons, List.count_append, List.count_append]
    rw [count_map_eq_zero _ _ _ (fun a => by simp),
      count_map_eq_zero _ _ _ (fun a => by simp)]
    rfl

/-! ## C2: the fixed step order of `render_frame` -/

/-- The image of the frame trace under `RenderEvent.phase`: a zero head,
a block of ones (texture updates), a block of twos (texture frees), and
the fixed singleton tail phases. -/
theorem render_frame_trace_map_phase (td : TexturesDelta) :
    (render_frame_trace td).map RenderEvent.phase =
      0 :: (List.replicate td.set.length 1 ++
        (List.replicate td.free.length 2 ++ ([3, 4, 5, 6, 7, 8, 9, 10, 11, 12] : List ℕ))) := by
  unfold render_frame_trace
  rw [List.map_cons, List.map_append, List.map_append, List.map_map, List.map_map]
  rw [show (RenderEvent.phase ∘ RenderEvent.updateTexture) = fun _ => 1 from rfl]
  rw [show (RenderEvent.phase ∘ RenderEvent.freeTexture) = fun _ => 2 from rfl]
  rw [List.map_const', List.map_const']
  rfl

/-- The phase shape of a frame trace is sorted. -/
theorem sorted_phase_list (n m : ℕ) :
    List.Sorted (· ≤ ·)
      (0 :: (List.replicate n 1 ++
        (List.replicate m 2 ++ ([3, 4, 5, 6, 7, 8, 9, 10, 11, 12] : List ℕ)))) := by
  have htail : ∀ y ∈ ([3, 4, 5, 6, 7, 8, 9, 10, 11, 12] : List ℕ), 2 ≤ y := by decide
  have hsorted : List.Sorted (· ≤ ·) ([3, 4, 5, 6, 7, 8, 9, 10, 11, 12] : List ℕ) := by decide
  rw [List.sorted_cons]
  refine ⟨fun b _ => Nat.zero_le b, ?_⟩
  rw [List.Sorted, List.pairwise_append]
  refine ⟨List.pairwise_replicate.2 (Or.inr le_rfl), ?_, ?_⟩
  · rw [List.pairwise_append]
    refine ⟨List.pairwise_replicate.2 (Or.inr le_rfl), hsorted, ?_⟩
    intro x hx y hy
    rw [List.eq_of_mem_replicate hx]
    exact le_trans (by norm_num) (htail y hy)
  · intro x hx y hy
    rw [List.eq_of_mem_replicate hx]
    rcases List.mem_append.1 hy with h2 | hL
    · rw [List.eq_of_mem_replicate h2]
      norm_num
    · exact le_trans (by norm_num) (htail y hL)

/-- Claim C2: `Renderer::render_frame` performs its steps in the fixed order of
`RenderEvent.phase` — the scene update (with `delta_time` converted to
seconds) first, then all texture updates, then all texture frees, then
encoder creation, then the GUI vertex/index buffer write through that
encoder, then surface-texture acquisition, then the render pass, then
submission, then presentation — and it issues exactly one
`update_texture` call per entry of the delta's `set` list, exactly one
`free_texture` call per entry of the `free` list, and exactly one of each
singleton step. -/
theorem render_frame_fixed_order (td : TexturesDelta) :
    ((render_frame_trace td).map RenderEvent.phase).Sorted (· ≤ ·) ∧
    (render_frame_trace td).head? = some RenderEvent.sceneUpdate ∧
    (∀ id, (render_frame_trace td).count (RenderEvent.updateTexture id) = td.set.count id) ∧
    (∀ id, (render_frame_trace td).count (RenderEvent.freeTexture id) = td.free.count id) ∧
    (render_frame_trace td).count RenderEvent.sceneUpdate = 1 ∧
    (render_frame_trace td).count RenderEvent.createEncoder = 1 ∧
    (render_frame_trace td).count RenderEvent.updateBuffers = 1 ∧
    (render_frame_trace td).count RenderEvent.acquireSurfaceTexture = 1 ∧
    (render_frame_trace td).count RenderEvent.submit = 1 ∧
    (render_frame_trace td).count RenderEvent.present = 1 := by
  refine ⟨?_, rfl, ?_, ?_, ?_, ?_, ?_, ?_, ?_, ?_⟩
  · rw [render_frame_trace_map_phase]
    exact sorted_phase_list td.set.length td.free.length
  · intro id
    unfold render_frame_trace
    rw [List.count_cons, List.count_append, List.count_append]
    rw [List.count_map_of_injective _ RenderEvent.updateTexture
      (fun a b h => by injection h) id]
    rw [count_map_eq_zero _ _ _ (fun a => by simp)]
    simp
  · intro id
    unfold render_frame_trace
    rw [List.count_cons, List.count_append, List.count_append]
    rw [List.count_map_of_injective _ RenderEvent.freeTexture
      (fun a b h => by injection h) id]
    rw [count_map_eq_zero _ _ _ (fun a => by simp)]
    simp
  all_goals
    unfold render_frame_trace
    rw [List.count_cons, List.count_append, List.count_append,
      count_map_eq_zero _ _ _ (fun a => by simp),
      count_map_eq_zero _ _ _ (fun a => by simp)]
    rfl

/-! ## C5: aspect ratio guards the zero divisor -/

/-- Claim C5: `Gpu::aspect_ratio` returns `width / max(height, 1)`: for
heights at least 1 this is `width / height`; for height 0 it is
`width / 1`; and the divisor is never zero, so no division by zero (and
no infinity) can arise. -/
theorem aspect_ratio_guards_zero (g : Gpu) :
    (1 ≤ g.surface_config.height →
      g.aspect_ratio = (g.surface_config.width : ℚ) / (g.surface_config.height : ℚ)) ∧
    (g.surface_config.height = 0 →
      g.aspect_ratio = (g.surface_config.width : ℚ) / 1) ∧
    ((max g.surface_config.height 1 : ℕ) : ℚ) ≠ 0 := by
  refine ⟨?_, ?_, ?_⟩
  · intro h1
    unfold Gpu.aspect_ratio
    rw [Nat.max_eq_left h1]
  · intro h0
    unfold Gpu.aspect_ratio
    rw [h0]
    norm_num
  · exact Nat.cast_ne_zero.2 (by omega)

/-- Witness for C5 at concrete states: an 800×600 surface yields
`800 / 600`, and a minimized 640×0 surface yields `640 / 1`. -/
theorem aspect_ratio_guards_zero_witness :
    gpu0.aspect_ratio = (800 : ℚ) / 600 ∧
    gpuZeroHeight.aspect_ratio = (640 : ℚ) / 1 := by
  constructor
  · have h := (aspect_ratio_guards_zero gpu0).1 (by decide)
    simpa using h
  · have h := (aspect_ratio_guards_zero gpuZeroHeight).2.1 rfl
    simpa using h

/-! ## C6: depth texture dimensions track the surface configuration -/

/-- Claim C6: after `Renderer::new(window, w, h)` the depth texture view
has exactly width `w` and height `h`, the same values stored in the
surface configuration, and after every `Renderer::resize(w, h)` the depth
texture view is freshly created (`Gpu::create_depth_texture`, not
resized) at exactly the new surface dimensions, always in the
`Depth32Float` format. -/
theorem depth_texture_matches_surface (caps : SurfaceCapabilities) (w h : ℕ)
    (r : Renderer) :
    (Renderer.new caps w h = some r →
      r.depth_texture_view.width = w ∧
      r.depth_texture_view.height = h ∧
      r.gpu.surface_config.width = w ∧
      r.gpu.surface_config.height = h ∧
      r.depth_texture_view.format = TextureFormat.Depth32Float) ∧
    (∀ (s : Renderer) (w' h' : ℕ),
      (s.resize w' h').depth_texture_view =
        (s.resize w' h').gpu.create_depth_texture w' h' ∧
      (s.resize w' h').depth_texture_view.width = w' ∧
      (s.resize w' h').depth_texture_view.height = h' ∧
      (s.resize w' h').gpu.surface_config.width = w' ∧
      (s.resize w' h').gpu.surface_config.height = h' ∧
      (s.resize w' h').depth_texture_view.format = TextureFormat.Depth32Float) := by
  constructor
  · intro hnew
    unfold Renderer.new Gpu.new_async at hnew
    cases hc : choose_surface_format caps.formats with
    | none => rw [hc] at hnew; exact absurd hnew (by simp)
    | some fmt =>
      cases hpm : caps.present_modes.head? with
      | none => rw [hc, hpm] at hnew; exact absurd hnew (by simp)
      | some pm =>
        cases ham : caps.alpha_modes.head? with
        | none => rw [hc, hpm, ham] at hnew; exact absurd hnew (by simp)
        | some am =>
          rw [hc, hpm, ham] at hnew
          injection hnew with hnew
          subst hnew
          exact ⟨rfl, rfl, rfl, rfl, rfl⟩
  · intro s w' h'
    exact ⟨rfl, rfl, rfl, rfl, rfl, rfl⟩

/-- Witness for C6: constructing the renderer at 800×600 over `caps0`
yields a `Depth32Float` depth view at 800×600 matching the surface
configuration, and resizing `renderer0` to 1920×1080 recreates the depth
view at 1920×1080. -/
theorem depth_texture_matches_surface_witness :
    (renderer0.depth_texture_view.width = 800 ∧
      renderer0.depth_texture_view.height = 600 ∧
      renderer0.gpu.surface_config.width = 800 ∧
      renderer0.gpu.surface_config.height = 600 ∧
      renderer0.depth_texture_view.format = TextureFormat.Depth32Float) ∧
    ((renderer0.resize 1920 1080).depth_texture_view =
        (renderer0.resize 1920 1080).gpu.create_depth_texture 1920 1080 ∧
      (renderer0.resize 1920 1080).depth_texture_view.width = 1920 ∧
      (renderer0.resize 1920 1080).depth_texture_view.height = 1080 ∧
      (renderer0.resize 1920 1080).gpu.surface_config.width = 1920 ∧
      (renderer0.resize 1920 1080).gpu.surface_config.height = 1080 ∧
      (renderer0.resize 1920 1080).depth_texture_view.format =
        TextureFormat.Depth32Float) :=
  ⟨(depth_texture_matches_surface caps0 800 600 renderer0).1 rfl,
   (depth_texture_matches_surface caps0 800 600 renderer0).2 renderer0 1920 1080⟩

/-! ## C7: resize is idempotent -/

/-- Claim C7: resizing twice in a row with the same dimensions leaves the
renderer (surface configuration, last-applied surface configuration and
depth texture view included) in exactly the state of resizing once;
`resize` is total, so no error is possible. -/
theorem resize_idempotent (r : Renderer) (w h : ℕ) :
    (r.resize w h).resize w h = r.resize w h := rfl

/-! ## C8: surface-format selection prefers non-sRGB -/

/-- The first element of a list satisfying a predicate, located by index:
`find?` returns the element at the first index whose predecessors all
fail the predicate. -/
theorem find?_eq_get_of_first {α : Type} (p : α → Bool) (l : List α) (k : ℕ)
    (hk : k < l.length) (hp : p (l.get ⟨k, hk⟩) = true)
    (hprev : ∀ j (hj : j < k), p (l.get ⟨j, hj.trans hk⟩) = false) :
    l.find? p = some (l.get ⟨k, hk⟩) := by
  induction l generalizing k with
  | nil => exact absurd hk (by simp)
  | cons x xs ih =>
    cases k with
    | zero => exact List.find?_cons_of_pos _ hp
    | succ k =>
      have hx : p x = false := hprev 0 (Nat.succ_pos _)
      rw [List.find?_cons_of_neg _ (by simp [hx])]
      exact ih k (Nat.lt_of_succ_lt_succ hk) hp
        (fun j hj => hprev (j + 1) (Nat.succ_lt_succ hj))

/-- Claim C8: for a non-empty capability list, `Gpu::new_async` selects
the format at the first position that is not sRGB (every earlier format
being sRGB), and when every reported format is sRGB it selects the first
format in the list. -/
theorem surface_format_selection (formats : List TextureFormat)
    (hne : formats ≠ []) :
    (∀ (k : ℕ) (hk : k < formats.length),
      (formats.get ⟨k, hk⟩).is_srgb = false →
      (∀ j (hj : j < k), (formats.get ⟨j, hj.trans hk⟩).is_srgb = true) →
      choose_surface_format formats = some (formats.get ⟨k, hk⟩)) ∧
    ((∀ f ∈ formats, f.is_srgb = true) →
      choose_surface_format formats =
        some (formats.get ⟨0, List.length_pos.2 hne⟩)) := by
  constructor
  · intro k hk hks hprev
    unfold choose_surface_format
    rw [find?_eq_get_of_first (fun g => !g.is_srgb) formats k hk (by simpa using hks)
      (fun j hj => by simpa using hprev j hj)]
  · intro hall
    unfold choose_surface_format
    rw [List.find?_eq_none.2 (fun x hx => by simp [hall x hx])]
    cases formats with
    | nil => exact absurd rfl hne
    | cons f rest => rfl

/-- Witness for C8: with capabilities `[Bgra8UnormSrgb, Bgra8Unorm]` the
selection skips the sRGB format and picks `Bgra8Unorm`; with the all-sRGB
list `[Rgba8UnormSrgb]` it falls back to the first format. -/
theorem surface_format_selection_witness :
    choose_surface_format
        [TextureFormat.Bgra8UnormSrgb, TextureFormat.Bgra8Unorm] =
      some TextureFormat.Bgra8Unorm ∧
    choose_surface_format [TextureFormat.Rgba8UnormSrgb] =
      some TextureFormat.Rgba8UnormSrgb := by
  constructor
  · exact (surface_format_selection
        [TextureFormat.Bgra8UnormSrgb, TextureFormat.Bgra8Unorm] (by decide)).1
      1 (by decide) (by decide)
      (fun j hj => by
        have hj0 : j = 0 := by omega
        subst hj0
        rfl)
  · exact (surface_format_selection [TextureFormat.Rgba8UnormSrgb] (by decide)).2
      (by decide)

/-! ## C9: events before the application is fully initialized -/

/-- Counterexample to C9 as stated: on the web target, when a window
event arrives at the moment the asynchronous `Renderer` construction has
completed (the one-shot channel holds the renderer but it has not been
received), the renderer field is still absent at entry to
`window_event`, yet the handler adopts the renderer in its
construction-completion check and then fully processes the event — here
a redraw request renders a frame and requests another redraw instead of
returning without action. -/
theorem window_event_not_ready_counterexample :
    appPendingReady.renderer = none ∧
    (appPendingReady.window_event 1 WindowEvent.redrawRequested).2 =
      [AppAction.renderFrame, AppAction.requestRedraw] :=
  ⟨rfl, rfl⟩

/-- Claim C9 as amended: if, after the web-target check for a completed
asynchronous `Renderer` construction, any of the GUI state, the Renderer,
the window handle or the last-render timestamp is still absent, the
event handler returns without rendering, resizing, exiting, or
requesting a redraw — the state change is at most the receiver check's
adoption, the action list is empty, and no event is queued for later
(the embedding carries no queue, matching the source, which stores no
event). -/
theorem window_event_not_ready_inert (app : App) (now : ℕ) (event : WindowEvent)
    (h : app.poll_renderer_receiver.gui_state = none ∨
      app.poll_renderer_receiver.renderer = none ∨
      app.poll_renderer_receiver.window = none ∨
      app.poll_renderer_receiver.last_render_time = none) :
    app.window_event now event = (app.poll_renderer_receiver, []) := by
  unfold App.window_event
  rcases hg : app.poll_renderer_receiver.gui_state with - | g <;>
    rcases hr : app.poll_renderer_receiver.renderer with - | r <;>
      rcases hw : app.poll_renderer_receiver.window with - | w <;>
        rcases ht : app.poll_renderer_receiver.last_render_time with - | t <;>
          simp_all

/-- Witness for the amended C9: in the uninitialized state every event
is inert. -/
theorem window_event_not_ready_inert_witness :
    appUninit.window_event 0 WindowEvent.redrawRequested = (appUninit, []) :=
  window_event_not_ready_inert appUninit 0 WindowEvent.redrawRequested (Or.inl rfl)

/-! ## C10: GUI-consumed events short-circuit the handler -/

/-- Claim C10: in the fully initialized state (all four optional fields
present, no pending construction channel), an event the GUI
input-translation state reports as consumed makes `window_event` return
immediately: the application state is unchanged and no action is
performed — no exit on Escape, no `Renderer::resize` or stored-size
update on resize, no frame rendered on redraw, and no new redraw
requested. -/
theorem window_event_consumed_inert (app : App) (gui : GuiState) (now : ℕ)
    (event : WindowEvent)
    (hrecv : app.renderer_receiver = none)
    (hgui : app.gui_state = some gui)
    (hr : ∃ r, app.renderer = some r)
    (hw : app.window = some ())
    (ht : ∃ t, app.last_render_time = some t)
    (hc : gui.consumes event = true) :
    app.window_event now event = (app, []) := by
  obtain ⟨r, hr⟩ := hr
  obtain ⟨t, ht⟩ := ht
  have hpoll : app.poll_renderer_receiver = app := by
    unfold App.poll_renderer_receiver
    rw [hrecv]
  unfold App.window_event
  rw [hpoll]
  simp [hgui, hr, hw, ht, hc]

/-- Witness for C10: in a ready state whose GUI consumes everything, a
resize event leaves the application untouched and performs nothing. -/
theorem window_event_consumed_inert_witness :
    appReadyConsuming.window_event 5 (WindowEvent.resized 1024 768) =
      (appReadyConsuming, []) :=
  window_event_consumed_inert appReadyConsuming { consumes := fun _ => true } 5
    (WindowEvent.resized 1024 768) rfl rfl ⟨renderer0, rfl⟩ rfl ⟨0, rfl⟩ rfl

/-! ## Rotation lemmas for `Scene::update` -/

/-- The Y axis is already a unit vector, so normalization fixes it. -/
theorem normalize3_y : normalize3 ![0, 1, 0] = ![0, 1, 0] := by
  funext i
  unfold normalize3
  norm_num

/-- On the Y axis the Rodrigues axis-angle matrix is the standard
Y-axis rotation. -/
theorem axis_angle_homogeneous_y (θ : ℝ) :
    axis_angle_homogeneous ![0, 1, 0] θ = rotationY θ := by
  unfold axis_angle_homogeneous rotationY
  rw [normalize3_y]
  ext i j
  fin_cases i <;> fin_cases j <;> simp

/-- Rotation via `nalgebra_glm::rotate` about the Y axis post-multiplies
by the standard Y-axis rotation. -/
theorem glm_rotate_y (m : Mat4) (θ : ℝ) :
    glm_rotate m θ ![0, 1, 0] = m * rotationY θ := by
  unfold glm_rotate
  rw [axis_angle_homogeneous_y]

/-- Square root of nine. -/
theorem sqrt_nine : Real.sqrt 9 = 3 := by
  rw [show (9 : ℝ) = 3 ^ 2 by norm_num]
  exact Real.sqrt_sq (by norm_num)

/-- The view matrix of this scene, evaluated: the left-handed look-at
matrix for the camera at `(0,0,3)` looking at the origin with `+Y` up. -/
theorem look_at_lh_camera :
    look_at_lh ![0, 0, 3] ![0, 0, 0] ![0, 1, 0] =
      Matrix.of ![![-1, 0, 0, 0], ![0, 1, 0, 0], ![0, 0, -1, 3], ![0, 0, 0, 1]] := by
  have hz : normalize3 (fun i => (![0, 0, 0] : Vec3) i - (![0, 0, 3] : Vec3) i) =
      ![0, 0, -1] := by
    funext i
    unfold normalize3
    fin_cases i <;> norm_num [sqrt_nine]
  have hx : normalize3 (cross3 ![0, 1, 0] ![0, 0, -1]) = ![-1, 0, 0] := by
    have hc : cross3 ![0, 1, 0] ![0, 0, -1] = ![-1, 0, 0] := by
      funext i
      unfold cross3
      fin_cases i <;> norm_num
    rw [hc]
    funext i
    unfold normalize3
    fin_cases i <;> norm_num
  have hy : cross3 ![0, 0, -1] ![-1, 0, 0] = ![0, 1, 0] := by
    funext i
    unfold cross3
    fin_cases i <;> norm_num
  unfold look_at_lh
  simp only [hz, hx, hy]
  ext i j
  fin_cases i <;> fin_cases j <;> norm_num [dot3]

/-- Rotating by a zero angle is the identity. -/
theorem rotationY_zero : rotationY 0 = 1 := by
  unfold rotationY
  ext i j
  fin_cases i <;> fin_cases j <;>
    simp [Matrix.one_apply, Matrix.vecHead, Matrix.vecTail]

/-- Y-axis rotations compose additively in the angle. -/
theorem rotationY_mul (x y : ℝ) :
    rotationY x * rotationY y = rotationY (x + y) := by
  unfold rotationY
  ext i j
  fin_cases i <;> fin_cases j <;>
    simp [Matrix.mul_apply, Fin.sum_univ_four, Real.cos_add, Real.sin_add] <;> ring

/-- The model-transform component of one `Scene::update` step: the prior
model matrix post-composed with a Y-axis rotation of
`30°.to_radians() * delta_time`. -/
theorem scene_update_model (s : Scene) (a dt : ℝ) :
    (s.update a dt).1.model = s.model * rotationY (radians 30 * dt) := by
  unfold Scene.update
  simp [UniformBinding.update_buffer, glm_rotate_y]

/-! ## C3: what one `Scene::update` step computes -/

/-- Claim C3: for every prior model matrix, aspect ratio `a` and
`delta_time` `dt`, one `Scene::update` call sets the model matrix to the
prior matrix composed with a rotation of `30° · dt` about the Y axis,
and issues exactly one uniform write, at byte offset 0, of the product
`P * V * model'`, where `P` is the left-handed perspective projection
with vertical field of view 80°, near plane 0.1, far plane 1000 and
aspect ratio `a`, and `V` is the left-handed look-at matrix for a camera
at `(0,0,3)` looking at the origin with `+Y` up. -/
theorem scene_update_spec (s : Scene) (a dt : ℝ) :
    (s.update a dt).1.model = s.model * rotationY (radians 30 * dt) ∧
    (s.update a dt).2.offset = 0 ∧
    (s.update a dt).2.data.mvp =
      perspective_lh_zo a (radians 80) 0.1 1000 *
        look_at_lh ![0, 0, 3] ![0, 0, 0] ![0, 1, 0] *
        (s.model * rotationY (radians 30 * dt)) := by
  refine ⟨scene_update_model s a dt, rfl, ?_⟩
  show perspective_lh_zo a (radians 80) 0.1 1000 *
      look_at_lh ![0, 0, 3] ![0, 0, 0] ![0, 1, 0] *
      glm_rotate s.model (radians 30 * dt) ![0, 1, 0] = _
  rw [glm_rotate_y]

/-! ## C4: rotation accumulates purely and linearly in elapsed time -/

/-- Claim C4: `Scene::update` accumulates rotation purely and linearly
in elapsed time — any number of updates with `delta_time = 0` leaves the
model matrix unchanged, and one update with `delta_time = t` yields the
same model matrix as two successive updates with `delta_time = t / 2`
(exactly, since the embedding computes with real numbers; the source's
`f32` arithmetic matches modulo floating-point accumulation error). -/
theorem scene_update_accumulation (s : Scene) (a : ℝ) (n : ℕ) (t : ℝ) :
    (s.updateIter a 0 n).model = s.model ∧
    ((s.update a (t / 2)).1.update a (t / 2)).1.model = (s.update a t).1.model := by
  constructor
  · induction n with
    | zero => rfl
    | succ n ih =>
      show ((s.updateIter a 0 n).update a 0).1.model = s.model
      rw [scene_update_model, ih, mul_zero, rotationY_zero, mul_one]
  · rw [scene_update_model, scene_update_model, scene_update_model]
    have hangle : radians 30 * (t / 2) + radians 30 * (t / 2) = radians 30 * t := by
      ring
    rw [mul_assoc, rotationY_mul, hangle]

end WgpuExample
